import Mathlib

/-!
Verification development for the `abc` bookstore application.

The definitions below are shallow embeddings of the Python source:
  * `utils/helpers.py`   — `calculate_cart_total`, `validate_coupon`, `calculate_shipping`
  * `utils/payments.py`  — `validate_webhook_signature`, `calculate_cod_charges`
  * `apps/cart/routes.py`    — the `checkout` order construction and `verify_payment`
  * `blueprints/api/routes.py` — the `razorpay_webhook` handler
  * `models/home.py`     — `HomeSection` scheduling and `validate_section_config`

Conventions: money amounts are paisa (`Nat`/`Int` as in the integer DB
columns); `datetime` values are `Nat` ticks; nullable columns are `Option`;
the float column `Coupon.value` is idealized as an exact rational `ℚ`.
Python truthiness of nullable integers (`None` and `0` are falsy) is made
explicit in the helpers `pyOrNat` and the guards that mirror it.
-/

set_option maxRecDepth 4000

namespace Abc

/-- Python `a or b` where `a` is a nullable integer: `None` and `0` are falsy,
so the right operand is used for both. -/
def pyOrNat : Option Nat → Nat → Nat
  | some s, b => if s = 0 then b else s
  | none, b => b

/-- Python `int(x)` on a real number: truncation toward zero. -/
def pyInt (q : ℚ) : Int := if 0 ≤ q then ⌊q⌋ else ⌈q⌉

/-- Python `str.upper` (ASCII letters, which covers the coupon codes used). -/
def pyUpper (s : String) : String := ⟨s.data.map Char.toUpper⟩

/-- Python `str.lower` (ASCII letters, which covers the state names compared). -/
def pyLower (s : String) : String := ⟨s.data.map Char.toLower⟩

/-! ### Data model (`models.py`) -/

/-- `OrderStatus` enum from `models.py`. -/
inductive OrderStatus
  | PENDING | PAID | PACKED | SHIPPED | DELIVERED | CANCELLED | REFUNDED
deriving DecidableEq, Repr

/-- `PaymentStatus` enum from `models.py`. -/
inductive PaymentStatus
  | UNPAID | PAID | FAILED | REFUNDED
deriving DecidableEq, Repr

/-- `CouponType` enum from `models.py`. -/
inductive CouponType
  | PERCENT | AMOUNT
deriving DecidableEq, Repr

/-- `Price` row: `mrp_inr` is non-nullable, `sale_inr` nullable (paisa). -/
structure Price where
  mrp_inr : Nat
  sale_inr : Option Nat
deriving DecidableEq, Repr

/-- `Inventory` row: `stock_on_hand` is a plain integer column, so it is
modelled as `Int` (decrements may drive it negative). -/
structure Inventory where
  sku : String
  stock_on_hand : Int
deriving DecidableEq, Repr

/-- `Product` row with its one-to-one `price` and `inventory` relationships
(either may be absent). -/
structure Product where
  id : Nat
  title : String
  price : Option Price
  inventory : Option Inventory
deriving DecidableEq, Repr

/-- `CartItem` row; the `product` relationship may dangle. -/
structure CartItem where
  product : Option Product
  quantity : Nat
deriving DecidableEq, Repr

/-- `Coupon` row.  `value` is a `Float` column, idealized as `ℚ`;
`min_subtotal`, `starts_at`, `ends_at` are nullable. -/
structure Coupon where
  code : String
  type : CouponType
  value : ℚ
  min_subtotal : Option Nat
  starts_at : Option Nat
  ends_at : Option Nat
  is_active : Bool
deriving DecidableEq, Repr

/-- `OrderItem` row as created by `checkout`. -/
structure OrderItem where
  product_id : Nat
  title_snapshot : String
  sku_snapshot : String
  unit_price_inr : Nat
  quantity : Nat
  line_total_inr : Nat
deriving DecidableEq, Repr

/-- `Order` row.  `discount_inr` and `grand_total_inr` are `Int` because the
float coupon value is not constrained to be nonnegative. -/
structure Order where
  id : Nat
  subtotal_inr : Nat
  discount_inr : Int
  shipping_inr : Nat
  tax_inr : Nat
  grand_total_inr : Int
  status : OrderStatus
  payment_status : PaymentStatus
  razorpay_order_id : Option String
  razorpay_payment_id : Option String
  invoice_path : Option String
  items : List OrderItem
deriving DecidableEq, Repr

/-- The three shipping settings of `config.py`; the `:=` defaults are both the
values in `Config` and the `.get(..., default)` fallbacks used at the call
sites. -/
structure Config where
  KASHMIR_SHIPPING_RATE : Nat := 5000
  INDIA_SHIPPING_RATE : Nat := 10000
  FREE_SHIPPING_THRESHOLD : Nat := 150000
deriving DecidableEq, Repr

/-! ### `utils/helpers.py` -/

/-- The subtotal loop shared by `calculate_cart_total` and `checkout`:
items whose product or price row is missing are skipped by the
`if item.product and item.product.price` guard, and the unit price is
`price.sale_inr or price.mrp_inr` (Python `or`, see `pyOrNat`). -/
def cart_subtotal (items : List CartItem) : Nat :=
  items.foldl
    (fun total it =>
      match it.product with
      | some p =>
          match p.price with
          | some pr => total + pyOrNat pr.sale_inr pr.mrp_inr * it.quantity
          | none => total
      | none => total)
    0

/-- The unit price a cart item contributes (0 when its product or price row is
missing, matching the skipped guard branch of the subtotal loop). -/
def cart_unit_price (it : CartItem) : Nat :=
  match it.product with
  | some p =>
      match p.price with
      | some pr => pyOrNat pr.sale_inr pr.mrp_inr
      | none => 0
  | none => 0

/-- `validate_coupon(code, subtotal_paisa)` from `utils/helpers.py`.
`coupons` is the coupon table, `now` is `datetime.utcnow()`.  The query
`Coupon.query.filter_by(code=code.upper(), is_active=True).first()` is the
first table row matching both filters.  The `min_subtotal` guard keeps
Python truthiness: a `NULL` or `0` minimum is not checked. -/
def validate_coupon (coupons : List Coupon) (now : Nat) (code : String)
    (subtotal_paisa : Nat) : Option Coupon :=
  if code = "" then none
  else
    match coupons.find? (fun c => c.code == pyUpper code && c.is_active) with
    | none => none
    | some coupon =>
        let starts_blocks : Bool :=
          match coupon.starts_at with | some t => now < t | none => false
        let ends_blocks : Bool :=
          match coupon.ends_at with | some t => t < now | none => false
        let min_blocks : Bool :=
          match coupon.min_subtotal with
          | some m => ¬(m = 0) && subtotal_paisa < m
          | none => false
        if starts_blocks then none
        else if ends_blocks then none
        else if min_blocks then none
        else some coupon

/-- `calculate_shipping(subtotal_paisa, user_state)` from `utils/helpers.py`.
An absent or empty state string is falsy in `user_state and ...`. -/
def calculate_shipping (cfg : Config) (subtotal_paisa : Nat)
    (user_state : Option String) : Nat :=
  if cfg.FREE_SHIPPING_THRESHOLD ≤ subtotal_paisa then 0
  else
    match user_state with
    | some st =>
        if ¬(st = "") && ["jammu and kashmir", "j&k", "kashmir"].contains (pyLower st) then
          cfg.KASHMIR_SHIPPING_RATE
        else cfg.INDIA_SHIPPING_RATE
    | none => cfg.INDIA_SHIPPING_RATE

/-! ### `apps/cart/routes.py` — checkout -/

/-- The discount block of `checkout`: run only when `form.coupon_code.data`
is truthy; `int(subtotal * coupon.value / 100)` for `PERCENT`,
`int(coupon.value * 100)` for `AMOUNT`, then `min(discount, subtotal)`. -/
def checkout_discount (coupons : List Coupon) (now : Nat) (coupon_code : String)
    (subtotal : Nat) : Int :=
  if coupon_code = "" then 0
  else
    match validate_coupon coupons now coupon_code subtotal with
    | some coupon =>
        let d : Int :=
          match coupon.type with
          | .PERCENT => pyInt ((subtotal : ℚ) * coupon.value / 100)
          | .AMOUNT => pyInt (coupon.value * 100)
        min d (subtotal : Int)
    | none => 0

/-- The shipping block of `checkout` (lines 162–165): the Kashmir rate
unconditionally, overridden to 0 at or above the free-shipping threshold.
`calculate_shipping` is not consulted here. -/
def checkout_shipping (cfg : Config) (subtotal : Nat) : Nat :=
  if cfg.FREE_SHIPPING_THRESHOLD ≤ subtotal then 0
  else cfg.KASHMIR_SHIPPING_RATE

/-- The order-item loop of `checkout`.  Unlike the subtotal loop it accesses
`item.product.price` without a guard, so a missing product or price row
raises (`none`): the request fails and no order is created. -/
def order_items_of (items : List CartItem) : Option (List OrderItem) :=
  items.mapM (fun it =>
    match it.product with
    | some p =>
        match p.price with
        | some pr =>
            some { product_id := p.id
                   title_snapshot := p.title
                   sku_snapshot := match p.inventory with
                                   | some inv => inv.sku
                                   | none => ""
                   unit_price_inr := pyOrNat pr.sale_inr pr.mrp_inr
                   quantity := it.quantity
                   line_total_inr := pyOrNat pr.sale_inr pr.mrp_inr * it.quantity }
        | none => none
    | none => none)

/-- The `checkout` POST handler of `apps/cart/routes.py`, restricted to its
order-construction core: an empty cart redirects away (`none`); otherwise
subtotal, discount, shipping, tax = 0 and the grand total are computed and
stored on a fresh `Order` row together with one `OrderItem` per cart item.
The payment-method branch only adds gateway identifiers afterwards and does
not change any of the monetary fields. -/
def checkout (cfg : Config) (coupons : List Coupon) (now : Nat) (order_id : Nat)
    (items : List CartItem) (coupon_code : String) : Option Order :=
  if items = [] then none
  else
    let subtotal := cart_subtotal items
    let discount := checkout_discount coupons now coupon_code subtotal
    let shipping := checkout_shipping cfg subtotal
    let tax : Nat := 0
    let grand_total : Int := (subtotal : Int) - discount + shipping + tax
    match order_items_of items with
    | none => none
    | some oitems =>
        some { id := order_id
               subtotal_inr := subtotal
               discount_inr := discount
               shipping_inr := shipping
               tax_inr := tax
               grand_total_inr := grand_total
               status := .PENDING
               payment_status := .UNPAID
               razorpay_order_id := none
               razorpay_payment_id := none
               invoice_path := none
               items := oitems }

/-! ### `utils/payments.py` -/

/-- `validate_webhook_signature(payload, signature, secret)` from
`utils/payments.py`.  The HMAC-SHA256 hex digest primitive from the standard
library is abstracted as the parameter `hmacHex` (secret, raw payload bytes ↦
hex digest); `hmac.compare_digest` on two ASCII strings is equality. -/
def validate_webhook_signature (hmacHex : String → List Nat → String)
    (payload : List Nat) (signature : String) (secret : String) : Bool :=
  hmacHex secret payload == signature

/-- `calculate_cod_charges(amount_paisa)` from `utils/payments.py`:
`max(2000, min(int(amount_paisa * 0.02), 10000))`.  The float literal `0.02`
is idealized as the exact rational `2/100`; the range claims proved below do
not depend on the rounding of the product. -/
def calculate_cod_charges (amount_paisa : Int) : Int :=
  let cod_rate : ℚ := 2 / 100
  let min_charge : Int := 2000
  let max_charge : Int := 10000
  let charge : Int := pyInt ((amount_paisa : ℚ) * cod_rate)
  max min_charge (min charge max_charge)

/-! ### Order/inventory store and the payment-capture handlers -/

/-- The slice of database state the payment handlers touch: the order table
and the inventory table (`product_id ↦ stock_on_hand`; a product without an
inventory row is simply absent). -/
structure Store where
  orders : List Order
  inv : List (Nat × Int)
deriving DecidableEq, Repr

/-- Replace the first element satisfying `p` (SQLAlchemy `.first()` followed
by mutating that row). -/
def updateFirst (p : α → Bool) (f : α → α) : List α → List α
  | [] => []
  | x :: xs => if p x then f x :: xs else x :: updateFirst p f xs

/-- The inventory-decrement loop shared verbatim by `verify_payment`
(`apps/cart/routes.py`) and the `payment.captured` branch of
`razorpay_webhook` (`blueprints/api/routes.py`):
for each order item, `if item.product.inventory:
item.product.inventory.stock_on_hand -= item.quantity`. -/
def decrement_items (inv : List (Nat × Int)) (its : List OrderItem) : List (Nat × Int) :=
  its.foldl
    (fun acc it =>
      acc.map (fun pr => if pr.1 = it.product_id then (pr.1, pr.2 - (it.quantity : Int)) else pr))
    inv

/-- Total quantity the order's items request of one product (the aggregate
effect of the per-item decrement loop on that product's stock). -/
def order_qty (its : List OrderItem) (pid : Nat) : Int :=
  (its.map (fun it => if it.product_id = pid then (it.quantity : Int) else 0)).sum

/-- Row predicate for `Order.query.filter_by(razorpay_order_id=...)`. -/
def matches_rzp (oid : String) (o : Order) : Bool :=
  o.razorpay_order_id == some oid

/-- `verify_payment` from `apps/cart/routes.py`: the gateway signature check
`verify_razorpay_payment` is an external call abstracted as the boolean
`verified`.  On success, the order matching the Razorpay order id gets the
payment id, `payment_status = PAID`, `status = PAID`, and the inventory
decrement loop runs over its items.  (Cart clearing and the confirmation
email touch neither the order row nor the inventory.) -/
def verify_payment (verified : Bool) (payment_id rzp_order_id : String)
    (st : Store) : Store :=
  if verified then
    match st.orders.find? (matches_rzp rzp_order_id) with
    | some order =>
        { orders := updateFirst (matches_rzp rzp_order_id)
            (fun o => { o with razorpay_payment_id := some payment_id
                               payment_status := .PAID
                               status := .PAID }) st.orders
          inv := decrement_items st.inv order.items }
    | none => st
  else st

/-- The parsed `event` / payment-entity part of a webhook body. -/
inductive WebhookEvent
  | captured (payment_id order_id : String)
  | failed (order_id : String)
  | other
deriving DecidableEq, Repr

/-- The row update the `payment.captured` branch performs on the matched
order. -/
def capture_update (pid : String) (pdfOk : Bool) (o : Order) : Order :=
  { o with razorpay_payment_id := some pid
           payment_status := .PAID
           status := .PAID
           invoice_path :=
             if pdfOk then some ("static/invoices/invoice_" ++ toString o.id ++ ".pdf")
             else o.invoice_path }

/-- The event-dispatch part of `razorpay_webhook`, reached only after the
signature check passed. -/
def webhook_process (event : WebhookEvent) (pdfOk : Bool) (st : Store) : Nat × Store :=
  match event with
  | .captured pid oid =>
      match st.orders.find? (matches_rzp oid) with
      | some order =>
          if order.payment_status = PaymentStatus.PAID then (200, st)
          else
            (200,
             { orders := updateFirst (matches_rzp oid) (capture_update pid pdfOk) st.orders
               inv := decrement_items st.inv order.items })
      | none => (200, st)
  | .failed oid =>
      match st.orders.find? (matches_rzp oid) with
      | some _ =>
          (200,
           { orders := updateFirst (matches_rzp oid)
               (fun o => { o with payment_status := .FAILED
                                  status := .CANCELLED }) st.orders
             inv := st.inv })
      | none => (200, st)
  | .other => (200, st)

/-- `razorpay_webhook` from `blueprints/api/routes.py`, returning the HTTP
status code and the resulting store: the secret/signature gate, then
`webhook_process` on the parsed event.  `secret` is
`config.get('RAZORPAY_WEBHOOK_SECRET')` (nullable), `signature` the nullable
`X-Razorpay-Signature` header, `hmacHex` the HMAC-SHA256 hex primitive, and
`pdfOk` whether `generate_invoice_pdf` succeeds.  A missing header makes
`hmac.compare_digest(None, ...)` raise, which the outer handler turns into
a 500 response with no mutation. -/
def razorpay_webhook (secret : Option String) (hmacHex : String → List Nat → String)
    (payload : List Nat) (signature : Option String) (event : WebhookEvent)
    (pdfOk : Bool) (st : Store) : Nat × Store :=
  match secret with
  | none => (400, st)
  | some sec =>
      match signature with
      | none => (500, st)
      | some sig =>
          if ¬(sig = hmacHex sec payload) then (400, st)
          else webhook_process event pdfOk st

/-! ### `models/home.py` -/

/-- `HomeSection` row (the columns the scheduling logic reads). -/
structure HomeSection where
  id : Nat
  position : Int
  is_active : Bool
  start_at : Option Nat
  end_at : Option Nat
deriving DecidableEq, Repr

/-- The `is_scheduled_active` property of `HomeSection`. -/
def is_scheduled_active (now : Nat) (s : HomeSection) : Bool :=
  if ¬s.is_active then false
  else if (match s.start_at with | some t => now < t | none => false : Bool) then false
  else if (match s.end_at with | some t => t < now | none => false : Bool) then false
  else true

/-- `HomeSection.get_active_sections`:
`query.filter_by(is_active=True).order_by(position)`. -/
def get_active_sections (sections : List HomeSection) : List HomeSection :=
  (sections.filter (fun s => s.is_active)).insertionSort
    (fun a b => a.position ≤ b.position)

/-- `HomeSection.get_scheduled_active_sections`. -/
def get_scheduled_active_sections (now : Nat) (sections : List HomeSection) :
    List HomeSection :=
  (get_active_sections sections).filter (is_scheduled_active now)

/-- `SectionType` enum from `models/home.py`. -/
inductive SectionType
  | HERO_SLIDER | TRUST_BADGES | CATEGORY_TILES | FEATURED_COLLECTION
  | NEW_ARRIVALS | BESTSELLERS | STAFF_PICKS | DEALS_OF_DAY
  | AUTHOR_SPOTLIGHT | PUBLISHER_SPOTLIGHT | LANGUAGE_SHELF | KIDS_CORNER
  | QUICK_ORDER_ISBN | TRENDING_SEARCHES | BLOG_SNIPPETS | TESTIMONIALS
  | NEWSLETTER_BAR | INFO_STRIP
deriving DecidableEq, Repr

/-- A JSON value as Python's `json` module produces it (booleans, ints,
floats, strings, arrays, objects, `None`). -/
inductive JVal where
  | null : JVal
  | bool (b : Bool) : JVal
  | int (n : Int) : JVal
  | float (q : ℚ) : JVal
  | str (s : String) : JVal
  | arr (xs : List JVal) : JVal
  | obj (fields : List (String × JVal)) : JVal

/-- The Python classes the `SECTION_SCHEMAS` values name. -/
inductive PyType
  | bool | int | str | list | dict
deriving DecidableEq, Repr

/-- Python's `isinstance` restricted to those classes; note `bool` is a
subclass of `int`, so a boolean is an `int` instance. -/
def isInstance : JVal → PyType → Bool
  | .bool _, .bool => true
  | .bool _, .int => true
  | .int _, .int => true
  | .str _, .str => true
  | .arr _, .list => true
  | .obj _, .dict => true
  | _, _ => false

/-- `__name__` of the schema classes, for the error strings. -/
def pyTypeName : PyType → String
  | .bool => "bool"
  | .int => "int"
  | .str => "str"
  | .list => "list"
  | .dict => "dict"

/-- `SECTION_SCHEMAS` from `models/home.py` (key order as in the source
dicts). -/
def SECTION_SCHEMAS : SectionType → List (String × PyType)
  | .HERO_SLIDER =>
      [("show_arrows", .bool), ("show_dots", .bool), ("autoplay_enabled", .bool),
       ("autoplay_interval_ms", .int), ("transition", .str), ("transition_ms", .int)]
  | .TRUST_BADGES => [("items", .list)]
  | .CATEGORY_TILES =>
      [("tiles", .list), ("columns_mobile", .int), ("columns_desktop", .int)]
  | .FEATURED_COLLECTION =>
      [("data_source", .str), ("manual_product_ids", .list), ("query", .dict),
       ("layout", .str)]
  | .NEW_ARRIVALS =>
      [("limit", .int), ("layout", .str), ("show_price_badges", .bool)]
  | .BESTSELLERS =>
      [("limit", .int), ("layout", .str), ("show_price_badges", .bool)]
  | .STAFF_PICKS => [("items", .list)]
  | .DEALS_OF_DAY => [("items", .list)]
  | .AUTHOR_SPOTLIGHT =>
      [("author_id", .int), ("portrait_asset", .int), ("blurb", .str)]
  | .PUBLISHER_SPOTLIGHT =>
      [("publisher_id", .int), ("logo_asset", .int), ("blurb", .str)]
  | .LANGUAGE_SHELF => [("languages", .list), ("limit", .int), ("layout", .str)]
  | .KIDS_CORNER => [("limit", .int), ("layout", .str), ("banner_asset", .int)]
  | .QUICK_ORDER_ISBN => [("enable_scanner", .bool), ("note_text", .str)]
  | .TRENDING_SEARCHES => [("terms", .list), ("view_all_link", .str)]
  | .BLOG_SNIPPETS => [("posts", .list)]
  | .TESTIMONIALS => [("items", .list)]
  | .NEWSLETTER_BAR =>
      [("title", .str), ("subtitle", .str), ("placeholder_text", .str),
       ("submit_label", .str)]
  | .INFO_STRIP => [("items", .list)]

/-- Result of `validate_section_config`: either `(False, "Unknown section
type: ...")` or `(len(errors) == 0, errors)`. -/
inductive ConfigCheck where
  | unknownType (msg : String) : ConfigCheck
  | checked (ok : Bool) (errors : List String) : ConfigCheck

/-- The error-collecting loop of `validate_section_config`: for each schema
key present in `config` whose value fails `isinstance`, the message
`f"{key} must be of type {expected_type.__name__}"`. -/
def section_config_errors (schema : List (String × PyType))
    (config : List (String × JVal)) : List String :=
  schema.foldr
    (fun kv errs =>
      match config.lookup kv.1 with
      | some v =>
          if ¬isInstance v kv.2 then
            (kv.1 ++ " must be of type " ++ pyTypeName kv.2) :: errs
          else errs
      | none => errs)
    []

/-- `validate_section_config(section_type, config)` from `models/home.py`.
A `section_type` outside the `SECTION_SCHEMAS` dict (i.e. not a
`SectionType` member, since every member has a schema) is `none`. -/
def validate_section_config (section_type : Option SectionType)
    (config : List (String × JVal)) : ConfigCheck :=
  match section_type with
  | none => .unknownType "Unknown section type"
  | some ty =>
      let errors := section_config_errors (SECTION_SCHEMAS ty) config
      .checked (errors.length = 0) errors

/-! ### Concrete inputs used by witnesses and counterexamples -/

/-- Shipping field of an optional order (0 when no order was created). -/
def shipping_of : Option Order → Nat
  | some o => o.shipping_inr
  | none => 0

/-- A one-line cart: two copies of a book with MRP 200 INR on sale for
150 INR. -/
def C1_items : List CartItem :=
  [{ product := some { id := 1, title := "B", price := some { mrp_inr := 20000, sale_inr := some 15000 },
                       inventory := none }, quantity := 2 }]

/-- The order `checkout` builds from `C1_items` with no coupon. -/
def C1_order : Order :=
  { id := 1, subtotal_inr := 30000, discount_inr := 0, shipping_inr := 5000,
    tax_inr := 0, grand_total_inr := 35000, status := .PENDING,
    payment_status := .UNPAID, razorpay_order_id := none,
    razorpay_payment_id := none, invoice_path := none,
    items := [{ product_id := 1, title_snapshot := "B", sku_snapshot := "",
                unit_price_inr := 15000, quantity := 2, line_total_inr := 30000 }] }

/-- An unrestricted active 10-percent coupon. -/
def C4_coupon : Coupon :=
  { code := "SAVE10", type := .PERCENT, value := 10, min_subtotal := none,
    starts_at := none, ends_at := none, is_active := true }

/-- Cart for the C5 witness: one 300-INR book. -/
def C5_items : List CartItem :=
  [{ product := some { id := 2, title := "C", price := some { mrp_inr := 30000, sale_inr := none },
                       inventory := none }, quantity := 1 }]

/-- The order `checkout` builds from `C5_items` with the 10-percent coupon
`C4_coupon` applied to the 30000-paisa subtotal. -/
def C5_order : Order :=
  { id := 1, subtotal_inr := 30000, discount_inr := 3000, shipping_inr := 5000,
    tax_inr := 0, grand_total_inr := 32000, status := .PENDING,
    payment_status := .UNPAID, razorpay_order_id := none,
    razorpay_payment_id := none, invoice_path := none,
    items := [{ product_id := 2, title_snapshot := "C", sku_snapshot := "",
                unit_price_inr := 30000, quantity := 1, line_total_inr := 30000 }] }

/-- Cart for the C6 counterexample: one 100-INR book, below the free-shipping
threshold. -/
def C6_items : List CartItem :=
  [{ product := some { id := 3, title := "D", price := some { mrp_inr := 10000, sale_inr := none },
                       inventory := none }, quantity := 1 }]

/-- An unpaid Razorpay order over two units of product 1. -/
def C2_order : Order :=
  { id := 7, subtotal_inr := 30000, discount_inr := 0, shipping_inr := 5000,
    tax_inr := 0, grand_total_inr := 35000, status := .PENDING,
    payment_status := .UNPAID, razorpay_order_id := some "rzp_1",
    razorpay_payment_id := none, invoice_path := none,
    items := [{ product_id := 1, title_snapshot := "B", sku_snapshot := "SKU1",
                unit_price_inr := 15000, quantity := 2, line_total_inr := 30000 }] }

/-- Store holding `C2_order` and 10 units of product 1 on hand. -/
def C2_store : Store := { orders := [C2_order], inv := [(1, 10)] }

/-- `C2_order` already captured, for the C8 witness. -/
def C8_order : Order :=
  { C2_order with payment_status := .PAID, status := .PAID,
                  razorpay_payment_id := some "pay_1" }

/-- Store whose only order is already PAID. -/
def C8_store : Store := { orders := [C8_order], inv := [(1, 8)] }

instance : IsTotal HomeSection (fun a b => a.position ≤ b.position) :=
  ⟨fun a b => le_total a.position b.position⟩

instance : IsTrans HomeSection (fun a b => a.position ≤ b.position) :=
  ⟨fun _ _ _ h h' => le_trans h h'⟩

/-! ### Theorems -/

/-- The guarded subtotal loop equals the sum of quantity-weighted unit
prices over all cart items. -/
theorem cart_subtotal_eq (items : List CartItem) :
    cart_subtotal items = (items.map fun it => cart_unit_price it * it.quantity).sum := by
  suffices h : ∀ (l : List CartItem) (a : Nat),
      l.foldl
        (fun total it =>
          match it.product with
          | some p =>
              match p.price with
              | some pr => total + pyOrNat pr.sale_inr pr.mrp_inr * it.quantity
              | none => total
          | none => total)
        a = a + (l.map fun it => cart_unit_price it * it.quantity).sum by
    simpa [cart_subtotal] using h items 0
  intro l
  induction l with
  | nil => simp
  | cons it l ih =>
      intro a
      rw [List.foldl_cons, ih, List.map_cons, List.sum_cons]
      cases hp : it.product with
      | none => simp [cart_unit_price, hp]
      | some p =>
          cases hpr : p.price with
          | none => simp [cart_unit_price, hp, hpr]
          | some pr => simp [cart_unit_price, hp, hpr]; ring

/-- Claim C10: `calculate_cod_charges` returns a value between 2000 and
10000 paisa inclusive for every integer order amount (2% of the amount
clamped to that range; the 2000 minimum also applies to zero or negative
amounts because the clamp is `max(min_charge, ...)`). -/
theorem C10_cod_charges_range (amount_paisa : Int) :
    2000 ≤ calculate_cod_charges amount_paisa
      ∧ calculate_cod_charges amount_paisa ≤ 10000 := by
  simp only [calculate_cod_charges]
  exact ⟨le_max_left _ _, max_le (by norm_num) (min_le_right _ _)⟩

/-- Claim C3: the Razorpay webhook responds 400 and leaves the store
untouched when the webhook secret is unconfigured, and likewise when the
`X-Razorpay-Signature` header is present but differs from the HMAC-SHA256
hex digest of the raw body under the secret; and
`validate_webhook_signature` returns `true` exactly on the matching
digest.  (The HMAC primitive is the abstract parameter `hmacHex`.) -/
theorem C3_webhook_signature_gate (hmacHex : String → List Nat → String)
    (payload : List Nat) (signature : Option String) (event : WebhookEvent)
    (pdfOk : Bool) (st : Store) :
    razorpay_webhook none hmacHex payload signature event pdfOk st = (400, st)
    ∧ (∀ sec sig, signature = some sig → sig ≠ hmacHex sec payload →
        razorpay_webhook (some sec) hmacHex payload signature event pdfOk st = (400, st))
    ∧ (∀ (sig secret : String),
        validate_webhook_signature hmacHex payload sig secret = true ↔
          sig = hmacHex secret payload) := by
  refine ⟨rfl, ?_, ?_⟩
  · intro sec sig hs hne
    subst hs
    simp only [razorpay_webhook]
    rw [if_pos hne]
  · intro sig secret
    unfold validate_webhook_signature
    rw [beq_iff_eq]
    exact eq_comm

/-- Witness for C3: a concrete mismatching signature is rejected with 400
and no state change. -/
theorem C3_witness :
    razorpay_webhook (some "whsec") (fun _ _ => "aa") [] (some "bb")
      .other false { orders := [], inv := [] }
      = (400, { orders := [], inv := [] }) :=
  (C3_webhook_signature_gate (fun _ _ => "aa") [] (some "bb") .other false
      { orders := [], inv := [] }).2.1 "whsec" "bb" rfl (by decide)

/-- `is_scheduled_active` in propositional form. -/
theorem is_scheduled_active_iff (now : Nat) (s : HomeSection) :
    is_scheduled_active now s = true ↔
      (s.is_active = true ∧ (∀ t, s.start_at = some t → t ≤ now)
        ∧ (∀ t, s.end_at = some t → now ≤ t)) := by
  unfold is_scheduled_active
  cases ha : s.is_active <;> cases hs : s.start_at <;> cases he : s.end_at <;>
    simp_all

/-- Claim C7: `get_scheduled_active_sections` returns exactly the sections
that are active and inside their schedule window, ordered by `position`
ascending. -/
theorem C7_scheduled_sections (now : Nat) (sections : List HomeSection) :
    (∀ s, s ∈ get_scheduled_active_sections now sections ↔
        (s ∈ sections ∧ s.is_active = true
          ∧ (∀ t, s.start_at = some t → t ≤ now)
          ∧ (∀ t, s.end_at = some t → now ≤ t)))
    ∧ (get_scheduled_active_sections now sections).Sorted
        (fun a b => a.position ≤ b.position) := by
  constructor
  · intro s
    unfold get_scheduled_active_sections get_active_sections
    rw [List.mem_filter, List.mem_insertionSort, List.mem_filter,
      is_scheduled_active_iff]
    tauto
  · exact (List.sorted_insertionSort _ _).filter _

/-- Unfolding the schema loop one schema entry at a time. -/
theorem section_config_errors_cons (kv : String × PyType)
    (schema : List (String × PyType)) (config : List (String × JVal)) :
    section_config_errors (kv :: schema) config =
      (match config.lookup kv.1 with
       | some v =>
           if ¬isInstance v kv.2 then
             (kv.1 ++ " must be of type " ++ pyTypeName kv.2)
               :: section_config_errors schema config
           else section_config_errors schema config
       | none => section_config_errors schema config) := rfl

/-- The error list is empty exactly when every schema key present in the
config carries a value of the scheduled type. -/
theorem section_config_errors_eq_nil_iff (schema : List (String × PyType))
    (config : List (String × JVal)) :
    section_config_errors schema config = [] ↔
      ∀ kv ∈ schema, ∀ v, config.lookup kv.1 = some v → isInstance v kv.2 = true := by
  induction schema with
  | nil => simp [section_config_errors]
  | cons kv schema ih =>
      rw [section_config_errors_cons]
      cases hl : config.lookup kv.1 with
      | none => simp [List.forall_mem_cons, hl, ih]
      | some v =>
          cases hi : isInstance v kv.2 with
          | false => simp [List.forall_mem_cons, hl, hi, ih]
          | true => simp [List.forall_mem_cons, hl, hi, ih]

/-- A key present in an association list has a successful lookup. -/
theorem lookup_isSome_of_mem {β : Type} {l : List (String × β)} {kv : String × β}
    (h : kv ∈ l) : (l.lookup kv.1).isSome := by
  induction l with
  | nil => simp at h
  | cons x xs ih =>
      rcases List.mem_cons.mp h with rfl | hmem
      · simp [List.lookup]
      · cases hx : (kv.1 == x.1) with
        | true => simp [List.lookup, hx]
        | false =>
            simp only [List.lookup, hx]
            exact ih hmem

/-- A successful association-list lookup comes from a member pair. -/
theorem lookup_eq_some_mem {β : Type} {k : String} {v : β} :
    ∀ {l : List (String × β)}, l.lookup k = some v → (k, v) ∈ l := by
  intro l
  induction l with
  | nil => intro h; simp [List.lookup] at h
  | cons x xs ih =>
      rcases x with ⟨a, b⟩
      intro h
      cases hbeq : (k == a) with
      | false =>
          simp only [List.lookup, hbeq] at h
          exact List.mem_cons_of_mem _ (ih h)
      | true =>
          simp only [List.lookup, hbeq] at h
          injection h with h
          subst h
          have hk : k = a := by simpa using hbeq
          subst hk
          exact List.mem_cons_self _ _

/-- Claim C9: `validate_section_config` only type-checks keys that are
present.  Every known section type accepts the empty configuration and any
configuration whose keys all lie outside the schema; a configuration is
rejected exactly when some schema key present in it has a value of the
wrong (`isinstance`) type, so missing schema keys are never errors; an
input outside the `SECTION_SCHEMAS` dict yields the unknown-type error. -/
theorem C9_section_config_validation :
    (∀ ty : SectionType, validate_section_config (some ty) [] = .checked true [])
    ∧ (∀ (ty : SectionType) (config : List (String × JVal)),
        (∀ kv ∈ config, (SECTION_SCHEMAS ty).lookup kv.1 = none) →
        validate_section_config (some ty) config = .checked true [])
    ∧ (∀ (ty : SectionType) (config : List (String × JVal)),
        (∃ errs, validate_section_config (some ty) config = .checked false errs) ↔
          ∃ kv ∈ SECTION_SCHEMAS ty, ∃ v,
            config.lookup kv.1 = some v ∧ isInstance v kv.2 = false)
    ∧ (∀ config, validate_section_config none config
        = .unknownType "Unknown section type") := by
  have herr : ∀ (ty : SectionType) (config : List (String × JVal)),
      section_config_errors (SECTION_SCHEMAS ty) config = [] ↔
        ∀ kv ∈ SECTION_SCHEMAS ty, ∀ v,
          config.lookup kv.1 = some v → isInstance v kv.2 = true :=
    fun ty config => section_config_errors_eq_nil_iff _ _
  refine ⟨?_, ?_, ?_, fun _ => rfl⟩
  · intro ty
    have h : section_config_errors (SECTION_SCHEMAS ty) [] = [] := by
      rw [herr]
      intro kv _ v hv
      simp [List.lookup] at hv
    simp [validate_section_config, h]
  · intro ty config hout
    have h : section_config_errors (SECTION_SCHEMAS ty) config = [] := by
      rw [herr]
      intro kv hkv v hv
      exfalso
      have hw : (kv.1, v) ∈ config := lookup_eq_some_mem hv
      have hnone := hout (kv.1, v) hw
      have hsome := lookup_isSome_of_mem hkv
      rw [hnone] at hsome
      exact absurd hsome (by simp)
    simp [validate_section_config, h]
  · intro ty config
    constructor
    · rintro ⟨errs, he⟩
      simp only [validate_section_config, ConfigCheck.checked.injEq] at he
      have hne : ¬section_config_errors (SECTION_SCHEMAS ty) config = [] := by
        intro hnil
        rw [hnil] at he
        simp at he
      rw [herr] at hne
      push_neg at hne
      rcases hne with ⟨kv, hkv, v, hv, hbad⟩
      exact ⟨kv, hkv, v, hv, by simpa using hbad⟩
    · rintro ⟨kv, hkv, v, hv, hbad⟩
      refine ⟨section_config_errors (SECTION_SCHEMAS ty) config, ?_⟩
      have hne : ¬section_config_errors (SECTION_SCHEMAS ty) config = [] := by
        rw [herr]
        push_neg
        exact ⟨kv, hkv, v, hv, by simp [hbad]⟩
      simp [validate_section_config, List.length_eq_zero, hne]

/-- Witness for C9: a `trust_badges` configuration whose only key is outside
the schema is accepted. -/
theorem C9_witness :
    validate_section_config (some .TRUST_BADGES) [("foo", .null)]
      = .checked true [] :=
  C9_section_config_validation.2.1 .TRUST_BADGES [("foo", .null)]
    (by
      intro kv hkv
      rw [List.mem_singleton] at hkv
      subst hkv
      rfl)

/-- With unique codes, the `filter_by(code=..., is_active=True).first()`
query returns exactly the member coupon carrying that code, when it is
active. -/
theorem find?_coupon_eq (coupons : List Coupon) (c : Coupon) (u : String)
    (hnd : (coupons.map (fun x => x.code)).Nodup)
    (hc : c ∈ coupons) (hcode : c.code = u) (hact : c.is_active = true) :
    coupons.find? (fun x => x.code == u && x.is_active) = some c := by
  induction coupons with
  | nil => simp at hc
  | cons x xs ih =>
      rw [List.map_cons, List.nodup_cons] at hnd
      rcases List.mem_cons.mp hc with rfl | hmem
      · exact List.find?_cons_of_pos _ (by simp [hcode, hact])
      · have hxc : ¬(x.code == u && x.is_active) = true := by
          intro hx
          have hxu : x.code = u := by
            have h := (Bool.and_eq_true _ _).mp hx
            exact beq_iff_eq.mp h.1
          apply hnd.1
          rw [hxu, ← hcode]
          exact List.mem_map_of_mem _ hmem
        have hstep : List.find? (fun y => y.code == u && y.is_active) (x :: xs)
            = List.find? (fun y => y.code == u && y.is_active) xs :=
          List.find?_cons_of_neg _ hxc
        rw [hstep]
        exact ih hnd.2 hmem

/-- Claim C4: with unique coupon codes (the DB constraint), an empty code is
always rejected, and otherwise `validate_coupon` returns coupon `c` exactly
when `c` is a table row whose code is the uppercased input, is active, whose
window contains `now` (each bound checked only when set), and whose
`min_subtotal`, when set, is at most the subtotal.  (A `min_subtotal` of 0
is falsy and skipped by the code, which agrees with `0 ≤ subtotal`.) -/
theorem C4_validate_coupon (coupons : List Coupon) (now : Nat) (code : String)
    (subtotal_paisa : Nat)
    (hnd : (coupons.map (fun x => x.code)).Nodup) :
    (code = "" → validate_coupon coupons now code subtotal_paisa = none)
    ∧ (code ≠ "" → ∀ c,
        (validate_coupon coupons now code subtotal_paisa = some c ↔
          (c ∈ coupons ∧ c.code = pyUpper code ∧ c.is_active = true
            ∧ (∀ t, c.starts_at = some t → t ≤ now)
            ∧ (∀ t, c.ends_at = some t → now ≤ t)
            ∧ (∀ m, c.min_subtotal = some m → m ≤ subtotal_paisa)))) := by
  constructor
  · intro h
    simp [validate_coupon, h]
  · intro hne c
    constructor
    · intro hv
      unfold validate_coupon at hv
      rw [if_neg hne] at hv
      cases hf : coupons.find? (fun x => x.code == pyUpper code && x.is_active) with
      | none => rw [hf] at hv; cases hv
      | some c' =>
          rw [hf] at hv
          simp only [] at hv
          split_ifs at hv with h1 h2 h3
          injection hv with hv
          rw [hv] at hf h1 h2 h3
          have hp := List.find?_some hf
          have hmem := List.mem_of_find?_eq_some hf
          have hcode : c.code = pyUpper code :=
            beq_iff_eq.mp ((Bool.and_eq_true _ _).mp hp).1
          have hact : c.is_active = true := ((Bool.and_eq_true _ _).mp hp).2
          refine ⟨hmem, hcode, hact, ?_, ?_, ?_⟩
          · intro t ht
            rw [ht] at h1
            simp at h1
            omega
          · intro t ht
            rw [ht] at h2
            simp at h2
            omega
          · intro m hm
            rw [hm] at h3
            simp at h3
            omega
    · rintro ⟨hmem, hcode, hact, hstart, hend, hmin⟩
      unfold validate_coupon
      rw [if_neg hne, find?_coupon_eq coupons c (pyUpper code) hnd hmem hcode hact]
      simp only []
      split_ifs with h1 h2 h3
      · exfalso
        cases ht : c.starts_at with
        | none => rw [ht] at h1; simp at h1
        | some t =>
            rw [ht] at h1
            simp at h1
            have := hstart t ht
            omega
      · exfalso
        cases ht : c.ends_at with
        | none => rw [ht] at h2; simp at h2
        | some t =>
            rw [ht] at h2
            simp at h2
            have := hend t ht
            omega
      · exfalso
        cases hm : c.min_subtotal with
        | none => rw [hm] at h3; simp at h3
        | some m =>
            rw [hm] at h3
            simp at h3
            have := hmin m hm
            omega
      · rfl

/-- Witness for C4 at a concrete one-row coupon table. -/
theorem C4_witness :
    validate_coupon [C4_coupon] 100 "save10" 50000 = some C4_coupon :=
  ((C4_validate_coupon [C4_coupon] 100 "save10" 50000 (by decide)).2
      (by decide) C4_coupon).mpr
    ⟨List.mem_singleton.mpr rfl, by decide, by decide,
     by intro t h; simp [C4_coupon] at h,
     by intro t h; simp [C4_coupon] at h,
     by intro m h; simp [C4_coupon] at h⟩

/-- Every order `checkout` creates carries exactly the computed subtotal,
discount, shipping and zero tax, combined into the grand total. -/
theorem checkout_fields (cfg : Config) (coupons : List Coupon) (now order_id : Nat)
    (items : List CartItem) (coupon_code : String) (o : Order)
    (h : checkout cfg coupons now order_id items coupon_code = some o) :
    o.subtotal_inr = cart_subtotal items
    ∧ o.discount_inr = checkout_discount coupons now coupon_code (cart_subtotal items)
    ∧ o.shipping_inr = checkout_shipping cfg (cart_subtotal items)
    ∧ o.tax_inr = 0
    ∧ o.grand_total_inr
        = (o.subtotal_inr : Int) - o.discount_inr + o.shipping_inr + o.tax_inr := by
  unfold checkout at h
  split_ifs at h
  cases hoi : order_items_of items with
  | none => rw [hoi] at h; cases h
  | some oitems =>
      rw [hoi] at h
      injection h with h
      subst h
      exact ⟨rfl, rfl, rfl, rfl, rfl⟩

/-- Claim C1: for every checkout that creates an order, the stored grand
total is subtotal − discount + shipping + tax, and the stored subtotal is
the sum over all cart items of quantity times unit price, where the unit
price is the sale price when one is set (the code treats a NULL or 0
`sale_inr` as unset) and the MRP otherwise. -/
theorem C1_order_totals (cfg : Config) (coupons : List Coupon) (now order_id : Nat)
    (items : List CartItem) (coupon_code : String) (o : Order)
    (h : checkout cfg coupons now order_id items coupon_code = some o) :
    o.grand_total_inr
        = (o.subtotal_inr : Int) - o.discount_inr + o.shipping_inr + o.tax_inr
    ∧ o.subtotal_inr = (items.map fun it => cart_unit_price it * it.quantity).sum := by
  obtain ⟨hs, _, _, _, hg⟩ := checkout_fields cfg coupons now order_id items coupon_code o h
  exact ⟨hg, by rw [hs, cart_subtotal_eq]⟩

/-- Witness for C1 on a concrete two-copy cart. -/
theorem C1_witness :
    C1_order.grand_total_inr
        = (C1_order.subtotal_inr : Int) - C1_order.discount_inr
          + C1_order.shipping_inr + C1_order.tax_inr
    ∧ C1_order.subtotal_inr
        = (C1_items.map fun it => cart_unit_price it * it.quantity).sum :=
  C1_order_totals {} [] 0 1 C1_items "" C1_order (by decide)

/-- Claim C5: the discount stored by `checkout` for a valid coupon is
`int(subtotal * value / 100)` for a `PERCENT` coupon and `int(value * 100)`
for an `AMOUNT` coupon, in both cases capped at the subtotal. -/
theorem C5_coupon_discount (cfg : Config) (coupons : List Coupon) (now order_id : Nat)
    (items : List CartItem) (coupon_code : String) (o : Order) (c : Coupon)
    (h : checkout cfg coupons now order_id items coupon_code = some o)
    (hc : validate_coupon coupons now coupon_code (cart_subtotal items) = some c) :
    (c.type = .PERCENT → o.discount_inr
        = min (pyInt ((o.subtotal_inr : ℚ) * c.value / 100)) (o.subtotal_inr : Int))
    ∧ (c.type = .AMOUNT → o.discount_inr
        = min (pyInt (c.value * 100)) (o.subtotal_inr : Int)) := by
  obtain ⟨hs, hd, _, _, _⟩ := checkout_fields cfg coupons now order_id items coupon_code o h
  have hcode : ¬coupon_code = "" := by
    intro hcc
    rw [hcc] at hc
    simp [validate_coupon] at hc
  rw [hs, hd]
  unfold checkout_discount
  rw [if_neg hcode, hc]
  simp only []
  constructor
  · intro hty
    rw [hty]
  · intro hty
    rw [hty]

/-- Witness for C5: the 10-percent coupon on a 300-INR cart yields a stored
discount of 3000 paisa, the capped integer part of `30000 * 10 / 100`. -/
theorem C5_witness :
    C5_order.discount_inr
      = min (pyInt ((C5_order.subtotal_inr : ℚ) * C4_coupon.value / 100))
          (C5_order.subtotal_inr : Int) := by
  have hsub : cart_subtotal C5_items = 30000 := by decide
  have hpy : pyInt (((30000 : Nat) : ℚ) * C4_coupon.value / 100) = 3000 := by
    show pyInt (((30000 : Nat) : ℚ) * 10 / 100) = 3000
    unfold pyInt
    rw [if_pos (by norm_num)]
    norm_num
  have hdisc : checkout_discount [C4_coupon] 0 "save10" 30000 = 3000 := by
    unfold checkout_discount
    rw [if_neg (by decide),
      show validate_coupon [C4_coupon] 0 "save10" 30000 = some C4_coupon by decide]
    simp only []
    rw [show C4_coupon.type = CouponType.PERCENT from rfl]
    simp only []
    rw [hpy]
    decide
  have hch : checkout {} [C4_coupon] 0 1 C5_items "save10" = some C5_order := by
    unfold checkout
    rw [if_neg (by decide)]
    simp only []
    rw [hsub, hdisc]
    decide
  have hv : validate_coupon [C4_coupon] 0 "save10" (cart_subtotal C5_items)
      = some C4_coupon := by decide
  exact (C5_coupon_discount {} [C4_coupon] 0 1 C5_items "save10" C5_order C4_coupon
      hch hv).1 rfl

/-- Counterexample for C6: a below-threshold checkout by a customer outside
Jammu and Kashmir stores the Kashmir rate (5000), not the India rate
(10000) that the location-based `calculate_shipping` rule prescribes. -/
theorem C6_counterexample :
    shipping_of (checkout {} [] 0 1 C6_items "") = 5000
    ∧ calculate_shipping {} (cart_subtotal C6_items) (some "Maharashtra") = 10000
    ∧ shipping_of (checkout {} [] 0 1 C6_items "")
        ≠ calculate_shipping {} (cart_subtotal C6_items) (some "Maharashtra") := by
  refine ⟨by decide, by decide, by decide⟩

/-- Amended C6: the shipping stored by `checkout` depends on the subtotal
alone — zero at or above the free-shipping threshold, the Kashmir rate
otherwise, for every customer; the location-dependent rates (Kashmir rate
for a Jammu-and-Kashmir state, India rate otherwise, below the threshold)
live only in the helper `calculate_shipping`, which the checkout total does
not use. -/
theorem C6_shipping_amended (cfg : Config) (coupons : List Coupon) (now order_id : Nat)
    (items : List CartItem) (coupon_code : String) (o : Order)
    (h : checkout cfg coupons now order_id items coupon_code = some o) :
    (o.shipping_inr = if cfg.FREE_SHIPPING_THRESHOLD ≤ cart_subtotal items then 0
        else cfg.KASHMIR_SHIPPING_RATE)
    ∧ (∀ (sub : Nat) (state : Option String),
        (cfg.FREE_SHIPPING_THRESHOLD ≤ sub → calculate_shipping cfg sub state = 0)
        ∧ (sub < cfg.FREE_SHIPPING_THRESHOLD → ∀ s, state = some s →
            calculate_shipping cfg sub state =
              if ¬(s = "") && ["jammu and kashmir", "j&k", "kashmir"].contains (pyLower s)
              then cfg.KASHMIR_SHIPPING_RATE else cfg.INDIA_SHIPPING_RATE)) := by
  obtain ⟨_, _, hsh, _, _⟩ := checkout_fields cfg coupons now order_id items coupon_code o h
  constructor
  · rw [hsh]
    rfl
  · intro sub state
    constructor
    · intro hle
      unfold calculate_shipping
      rw [if_pos hle]
    · intro hlt s hst
      subst hst
      unfold calculate_shipping
      rw [if_neg (by omega)]

/-- Witness for the amended C6 at a concrete below-threshold checkout. -/
theorem C6_witness :
    C1_order.shipping_inr
      = if (Config.mk 5000 10000 150000).FREE_SHIPPING_THRESHOLD ≤ cart_subtotal C1_items
        then 0 else (Config.mk 5000 10000 150000).KASHMIR_SHIPPING_RATE :=
  (C6_shipping_amended {} [] 0 1 C1_items "" C1_order (by decide)).1

/-- The decrement loop acts row-wise: each inventory row loses exactly the
total quantity the order's items request of its product; rows of other
products (and products with no inventory row, which are simply absent) are
untouched. -/
theorem decrement_items_map (its : List OrderItem) :
    ∀ inv : List (Nat × Int),
      decrement_items inv its
        = inv.map (fun pr => (pr.1, pr.2 - order_qty its pr.1)) := by
  induction its with
  | nil =>
      intro inv
      simp [decrement_items, order_qty]
  | cons it its ih =>
      intro inv
      have h1 : decrement_items inv (it :: its)
          = decrement_items
              (inv.map (fun pr =>
                if pr.1 = it.product_id then (pr.1, pr.2 - (it.quantity : Int)) else pr))
              its := rfl
      rw [h1, ih, List.map_map]
      congr 1
      funext pr
      simp only [Function.comp]
      have hq : order_qty (it :: its) pr.1
          = (if it.product_id = pr.1 then (it.quantity : Int) else 0)
            + order_qty its pr.1 := by
        simp [order_qty]
      by_cases hpr : pr.1 = it.product_id
      · rw [if_pos hpr, hq, if_pos hpr.symm]
        simp only []
        rw [Prod.mk.injEq]
        exact ⟨rfl, by ring⟩
      · rw [if_neg hpr, hq, if_neg (fun hh => hpr hh.symm)]
        rw [Prod.mk.injEq]
        exact ⟨rfl, by ring⟩

/-- `find?` after `updateFirst` on the same predicate returns the updated
row, provided the update preserves the predicate. -/
theorem find?_updateFirst {α : Type} (p : α → Bool) (f : α → α)
    (hpf : ∀ x, p x = true → p (f x) = true) :
    ∀ l : List α, (updateFirst p f l).find? p = (l.find? p).map f := by
  intro l
  induction l with
  | nil => rfl
  | cons x xs ih =>
      by_cases hx : p x = true
      · rw [updateFirst, if_pos hx]
        rw [List.find?_cons_of_pos _ (hpf x hx), List.find?_cons_of_pos _ hx]
        rfl
      · rw [updateFirst, if_neg hx]
        have e1 : List.find? p (x :: updateFirst p f xs) = List.find? p (updateFirst p f xs) :=
          List.find?_cons_of_neg _ hx
        have e2 : List.find? p (x :: xs) = List.find? p xs :=
          List.find?_cons_of_neg _ hx
        rw [e1, e2]
        exact ih

/-- `capture_update` keeps the Razorpay order id, so the row keeps matching
the webhook's order lookup. -/
theorem capture_update_matches (oid pid : String) (pdfOk : Bool) :
    ∀ x : Order, matches_rzp oid x = true → matches_rzp oid (capture_update pid pdfOk x) = true :=
  fun _ hx => hx

/-- The payment-capture update of `verify_payment` keeps the Razorpay order
id as well. -/
theorem verify_update_matches (oid pid : String) :
    ∀ x : Order, matches_rzp oid x = true →
      matches_rzp oid { x with razorpay_payment_id := some pid,
                               payment_status := PaymentStatus.PAID,
                               status := OrderStatus.PAID } = true :=
  fun _ hx => hx

/-- The signature gate of `razorpay_webhook`, isolated. -/
theorem webhook_gate (sec : String) (hmacHex : String → List Nat → String)
    (payload : List Nat) (sig : String) (event : WebhookEvent) (pdfOk : Bool)
    (st : Store) :
    razorpay_webhook (some sec) hmacHex payload (some sig) event pdfOk st
      = if sig = hmacHex sec payload then webhook_process event pdfOk st
        else (400, st) := by
  unfold razorpay_webhook
  by_cases hs : sig = hmacHex sec payload
  · rw [if_pos hs]
    exact if_neg (not_not_intro hs)
  · rw [if_neg hs]
    exact if_pos hs

/-- `webhook_process` on a `payment.captured` event, with the event match
reduced. -/
theorem webhook_process_captured_eq (pid oid : String) (pdfOk : Bool) (st : Store) :
    webhook_process (.captured pid oid) pdfOk st
      = (match st.orders.find? (matches_rzp oid) with
         | some order =>
             if order.payment_status = PaymentStatus.PAID then (200, st)
             else
               (200,
                { orders := updateFirst (matches_rzp oid) (capture_update pid pdfOk) st.orders
                  inv := decrement_items st.inv order.items })
         | none => (200, st)) := rfl

/-- A `payment.captured` event for an order already marked PAID changes
nothing in `webhook_process`. -/
theorem webhook_process_paid_noop (pid oid : String) (pdfOk : Bool) (st : Store)
    (o : Order) (hf : st.orders.find? (matches_rzp oid) = some o)
    (hp : o.payment_status = PaymentStatus.PAID) :
    webhook_process (.captured pid oid) pdfOk st = (200, st) := by
  rw [webhook_process_captured_eq, hf]
  simp only []
  rw [if_pos hp]

/-- Applying the `payment.captured` processing twice is the same as applying
it once. -/
theorem webhook_process_captured_idem (pid oid : String) (pdfOk : Bool) (st : Store) :
    (webhook_process (.captured pid oid) pdfOk
        (webhook_process (.captured pid oid) pdfOk st).2).2
      = (webhook_process (.captured pid oid) pdfOk st).2 := by
  cases hf : st.orders.find? (matches_rzp oid) with
  | none =>
      have h1 : webhook_process (.captured pid oid) pdfOk st = (200, st) := by
        rw [webhook_process_captured_eq, hf]
      rw [h1]
      rw [h1]
  | some o =>
      by_cases hp : o.payment_status = PaymentStatus.PAID
      · have h1 := webhook_process_paid_noop pid oid pdfOk st o hf hp
        rw [h1]
        rw [h1]
      · have h1 : webhook_process (.captured pid oid) pdfOk st
            = (200,
               { orders := updateFirst (matches_rzp oid) (capture_update pid pdfOk) st.orders
                 inv := decrement_items st.inv o.items }) := by
          rw [webhook_process_captured_eq, hf]
          simp only []
          rw [if_neg hp]
        rw [h1]
        have hf2 : (updateFirst (matches_rzp oid) (capture_update pid pdfOk) st.orders).find?
            (matches_rzp oid) = some (capture_update pid pdfOk o) := by
          rw [find?_updateFirst (matches_rzp oid) (capture_update pid pdfOk)
            (capture_update_matches oid pid pdfOk) st.orders, hf]
          rfl
        exact congrArg Prod.snd
          (webhook_process_paid_noop pid oid pdfOk _ _ hf2 rfl)

/-- Claim C2: capturing a payment — through the verified client callback, or
through a `payment.captured` webhook with a valid signature for an order not
yet PAID — sets the matched order's `payment_status` and `status` to PAID
(recording the payment id, and the invoice path on the webhook path) and
decreases each inventory row by the total quantity the order's items request
of that product (each item decrements its own product once, so a product
appearing in one item loses exactly that item's quantity). -/
theorem C2_capture_effects (pid oid : String) (st : Store) (o : Order)
    (hf : st.orders.find? (matches_rzp oid) = some o) :
    ((verify_payment true pid oid st).orders.find? (matches_rzp oid)
        = some { o with razorpay_payment_id := some pid,
                        payment_status := PaymentStatus.PAID,
                        status := OrderStatus.PAID }
      ∧ (verify_payment true pid oid st).inv
          = st.inv.map (fun pr => (pr.1, pr.2 - order_qty o.items pr.1)))
    ∧ (∀ (sec : String) (hmacHex : String → List Nat → String) (payload : List Nat)
        (pdfOk : Bool),
        o.payment_status ≠ PaymentStatus.PAID →
        ((razorpay_webhook (some sec) hmacHex payload (some (hmacHex sec payload))
              (.captured pid oid) pdfOk st).2.orders.find? (matches_rzp oid)
            = some (capture_update pid pdfOk o)
          ∧ (razorpay_webhook (some sec) hmacHex payload (some (hmacHex sec payload))
              (.captured pid oid) pdfOk st).2.inv
            = st.inv.map (fun pr => (pr.1, pr.2 - order_qty o.items pr.1)))) := by
  constructor
  · have h1 : verify_payment true pid oid st
        = { orders := updateFirst (matches_rzp oid)
              (fun x => { x with razorpay_payment_id := some pid,
                                 payment_status := PaymentStatus.PAID,
                                 status := OrderStatus.PAID }) st.orders
            inv := decrement_items st.inv o.items } := by
      unfold verify_payment
      rw [if_pos rfl, hf]
    rw [h1]
    constructor
    · rw [find?_updateFirst (matches_rzp oid) _ (verify_update_matches oid pid) st.orders, hf]
      rfl
    · exact decrement_items_map o.items st.inv
  · intro sec hmacHex payload pdfOk hnp
    rw [webhook_gate, if_pos rfl]
    have h1 : webhook_process (.captured pid oid) pdfOk st
        = (200,
           { orders := updateFirst (matches_rzp oid) (capture_update pid pdfOk) st.orders
             inv := decrement_items st.inv o.items }) := by
      rw [webhook_process_captured_eq, hf]
      simp only []
      rw [if_neg hnp]
    rw [h1]
    constructor
    · show (updateFirst (matches_rzp oid) (capture_update pid pdfOk) st.orders).find?
          (matches_rzp oid) = some (capture_update pid pdfOk o)
      rw [find?_updateFirst (matches_rzp oid) (capture_update pid pdfOk)
        (capture_update_matches oid pid pdfOk) st.orders, hf]
      rfl
    · show decrement_items st.inv o.items
          = st.inv.map (fun pr => (pr.1, pr.2 - order_qty o.items pr.1))
      exact decrement_items_map o.items st.inv

/-- Witness for C2: capturing the concrete unpaid order marks it PAID and
drops product 1's stock from 10 to 8. -/
theorem C2_witness :
    (verify_payment true "pay_1" "rzp_1" C2_store).orders.find? (matches_rzp "rzp_1")
        = some { C2_order with razorpay_payment_id := some "pay_1",
                               payment_status := PaymentStatus.PAID,
                               status := OrderStatus.PAID }
    ∧ (verify_payment true "pay_1" "rzp_1" C2_store).inv
        = C2_store.inv.map (fun pr => (pr.1, pr.2 - order_qty C2_order.items pr.1)) :=
  (C2_capture_effects "pay_1" "rzp_1" C2_store C2_order (by decide)).1

/-- Claim C8: the `payment.captured` webhook only changes state the first
time.  Once the matched order is PAID, any further `payment.captured`
webhook for that order leaves the store (order rows and all inventory)
unchanged; in particular processing the same webhook twice equals
processing it once, so inventory is never decremented twice. -/
theorem C8_webhook_idempotent (secret : Option String)
    (hmacHex : String → List Nat → String) (payload : List Nat)
    (signature : Option String) (pid oid : String) (pdfOk : Bool) (st : Store) :
    (∀ o, st.orders.find? (matches_rzp oid) = some o →
        o.payment_status = PaymentStatus.PAID →
        (razorpay_webhook secret hmacHex payload signature
            (.captured pid oid) pdfOk st).2 = st)
    ∧ (razorpay_webhook secret hmacHex payload signature (.captured pid oid) pdfOk
          (razorpay_webhook secret hmacHex payload signature
              (.captured pid oid) pdfOk st).2).2
        = (razorpay_webhook secret hmacHex payload signature
            (.captured pid oid) pdfOk st).2 := by
  cases secret with
  | none => exact ⟨fun _ _ _ => rfl, rfl⟩
  | some sec =>
      cases signature with
      | none => exact ⟨fun _ _ _ => rfl, rfl⟩
      | some sig =>
          by_cases hs : sig = hmacHex sec payload
          · constructor
            · intro o hf hp
              rw [webhook_gate, if_pos hs,
                webhook_process_paid_noop pid oid pdfOk st o hf hp]
            · rw [webhook_gate, if_pos hs, webhook_gate, if_pos hs]
              exact webhook_process_captured_idem pid oid pdfOk st
          · constructor
            · intro o hf hp
              rw [webhook_gate, if_neg hs]
            · rw [webhook_gate, if_neg hs]

/-- Witness for C8: a repeated capture webhook for the already-PAID concrete
order leaves the store unchanged. -/
theorem C8_witness :
    (razorpay_webhook (some "whsec2") (fun _ _ => "sig") [] (some "sig")
        (.captured "pay_2" "rzp_1") false C8_store).2 = C8_store :=
  (C8_webhook_idempotent (some "whsec2") (fun _ _ => "sig") [] (some "sig")
      "pay_2" "rzp_1" false C8_store).1 C8_order (by decide) rfl

end Abc
